import Mathlib

/-!
Shallow embedding of the worker-facing client layer
(`src/core/src/worker/client.rs`): the capability negotiator and the
request-assembly logic of `WorkerClientBag`, together with theorems about
the assembled wire requests.

Opaque domain data (payload bodies, failures, commands, metadata blocks)
is passed through by the client unmodified, so each such blob is embedded
as a one-field wrapper around `Nat`; the client never inspects it.
-/

/-- Opaque payload collection (serialization is out of scope; passed through). -/
structure Payloads where
  blob : Nat
deriving DecidableEq, Repr

/-- Opaque failure object (passed through unmodified). -/
structure Failure where
  blob : Nat
deriving DecidableEq, Repr

/-- Opaque outgoing command (passed through unmodified). -/
structure Command where
  blob : Nat
deriving DecidableEq, Repr

/-- Opaque sticky-queue attributes (passed through unmodified). -/
structure StickyExecutionAttributes where
  blob : Nat
deriving DecidableEq, Repr

/-- Opaque SDK metadata block (passed through unmodified). -/
structure WorkflowTaskCompletedMetadata where
  blob : Nat
deriving DecidableEq, Repr

/-- Opaque metering metadata block (passed through unmodified). -/
structure MeteringMetadata where
  blob : Nat
deriving DecidableEq, Repr

/-- Opaque inter-SDK protocol message (the client only ever sends `[]`). -/
structure Message where
  blob : Nat
deriving DecidableEq, Repr

/-- Opaque stand-in for the `f64` activity rate limit: the client only
passes it through into queue metadata, performing no arithmetic on it. -/
structure F64 where
  bits : Nat
deriving DecidableEq, Repr

/-- Opaque task token: a thin wrapper over bytes (`TaskToken(pub Vec<u8>)`).
`bytes` embeds the Rust tuple field `.0`; `.into()` extracts the same bytes. -/
structure TaskToken where
  bytes : List Nat
deriving DecidableEq, Repr

/-- The cached server capability descriptor
(`get_system_info_response::Capabilities`); the client consults only the
`build_id_based_versioning` flag, and `Default` gives `false`. -/
structure Capabilities where
  build_id_based_versioning : Bool := false
deriving DecidableEq, Repr

/-- Embeds `WorkerVersionCapabilities` (poll-time versioning information). -/
structure WorkerVersionCapabilities where
  build_id : String
  use_versioning : Bool
deriving DecidableEq, Repr

/-- Embeds `WorkerVersionStamp` (completion-time versioning information). -/
structure WorkerVersionStamp where
  build_id : String
  bundle_id : String
  use_versioning : Bool
deriving DecidableEq, Repr

/-- Modelled from the spec: the `QueryResult` record of the protos crate
(not under `src/`), which §3 describes as "a tagged record decomposing into
(query id, completion-type tag, answer payload, optional error message)".
The completion-type tag is embedded as the integer it is cast to
(`completed_type as i32` in the source). -/
structure QueryResult where
  query_id : String
  completed_type : Int
  answer : Option Payloads
  error_message : String
deriving DecidableEq, Repr

/-- Modelled from the spec: `QueryResult::into_components` (protos crate,
not under `src/`) explodes the record into its four parts, per §3:
"the façade must be able to explode it into these four parts". -/
def QueryResult.into_components (q : QueryResult) :
    String × Int × Option Payloads × String :=
  (q.query_id, q.completed_type, q.answer, q.error_message)

/-- A per-query entry of the workflow-task-completed request
(`query.v1.WorkflowQueryResult`). -/
structure WorkflowQueryResult where
  result_type : Int
  answer : Option Payloads
  error_message : String
deriving DecidableEq, Repr

/-- The partially-built completion record handed to
`complete_workflow_task` (struct `WorkflowTaskCompletion` in the source). -/
structure WorkflowTaskCompletion where
  task_token : TaskToken
  commands : List Command
  sticky_attributes : Option StickyExecutionAttributes
  query_responses : List QueryResult
  return_new_workflow_task : Bool
  force_create_new_workflow_task : Bool
  sdk_metadata : WorkflowTaskCompletedMetadata
  metering_metadata : MeteringMetadata
deriving DecidableEq, Repr

/-- Task-queue kind enumeration (`enums.v1.TaskQueueKind`), with its wire
integer encoding. -/
inductive TaskQueueKind where
  | Unspecified
  | Normal
  | Sticky
deriving DecidableEq, Repr

/-- The `as i32` cast on `TaskQueueKind`. -/
def TaskQueueKind.toI32 : TaskQueueKind → Int
  | .Unspecified => 0
  | .Normal => 1
  | .Sticky => 2

/-- Embeds `taskqueue.v1.TaskQueue`: a queue descriptor. -/
structure TaskQueue where
  name : String
  kind : Int
  normal_name : String
deriving DecidableEq, Repr

/-- Embeds `taskqueue.v1.TaskQueueMetadata`. -/
structure TaskQueueMetadata where
  max_tasks_per_second : Option F64
deriving DecidableEq, Repr

/-- Embeds `common.v1.WorkflowExecution`: an execution reference. -/
structure WorkflowExecution where
  workflow_id : String
  run_id : String
deriving DecidableEq, Repr

/-- The session state of the façade (`WorkerClientBag`). The transport
handle is replaced by a snapshot of the transport's cached capability
descriptor (`capabilities`), which the Rust code reads through
`self.client.get_client().inner().capabilities()` and never writes. -/
structure WorkerClientBag where
  «namespace» : String
  identity : String
  worker_build_id : String
  use_versioning : Bool
  capabilities : Option Capabilities
deriving DecidableEq, Repr

/-- Embeds `WorkerClientBag::default_capabilities`: the cached descriptor, or the
all-default descriptor when the cache is absent (`unwrap_or_default`). -/
def WorkerClientBag.default_capabilities (c : WorkerClientBag) : Capabilities :=
  c.capabilities.getD {}

/-- Embeds `WorkerClientBag::binary_checksum`. -/
def WorkerClientBag.binary_checksum (c : WorkerClientBag) : String :=
  if c.default_capabilities.build_id_based_versioning then ""
  else c.worker_build_id

/-- Embeds `WorkerClientBag::worker_version_capabilities`. -/
def WorkerClientBag.worker_version_capabilities (c : WorkerClientBag) :
    Option WorkerVersionCapabilities :=
  if c.default_capabilities.build_id_based_versioning then
    some { build_id := c.worker_build_id, use_versioning := c.use_versioning }
  else none

/-- Embeds `WorkerClientBag::worker_version_stamp`. -/
def WorkerClientBag.worker_version_stamp (c : WorkerClientBag) :
    Option WorkerVersionStamp :=
  if c.default_capabilities.build_id_based_versioning then
    some { build_id := c.worker_build_id, bundle_id := ""
           use_versioning := c.use_versioning }
  else none

/-- Embeds `PollWorkflowTaskQueueRequest` as assembled by the client. -/
structure PollWorkflowTaskQueueRequest where
  «namespace» : String
  task_queue : Option TaskQueue
  identity : String
  binary_checksum : String
  worker_version_capabilities : Option WorkerVersionCapabilities
deriving DecidableEq, Repr

/-- Embeds `PollActivityTaskQueueRequest` as assembled by the client. -/
structure PollActivityTaskQueueRequest where
  «namespace» : String
  task_queue : Option TaskQueue
  identity : String
  task_queue_metadata : Option TaskQueueMetadata
  worker_version_capabilities : Option WorkerVersionCapabilities
deriving DecidableEq, Repr

/-- Insertion into an id-keyed association map: an existing entry under the
key is overwritten, otherwise the entry is appended. This is the per-item
effect of collecting an iterator into the Rust `HashMap` keyed by query id
(duplicate keys: last wins). -/
def mapInsert (m : List (String × WorkflowQueryResult)) (k : String)
    (v : WorkflowQueryResult) : List (String × WorkflowQueryResult) :=
  if k ∈ m.map Prod.fst then
    m.map (fun e => if e.1 = k then (k, v) else e)
  else m ++ [(k, v)]

/-- Collecting an iterator of (id, result) pairs into the id-keyed map
(the Rust `.collect()` into the proto map field `query_results`): entries
are inserted in iteration order, so a duplicate id keeps only the last
result. The map is represented as an association list with unique keys. -/
def mapCollect (l : List (String × WorkflowQueryResult)) :
    List (String × WorkflowQueryResult) :=
  l.foldl (fun m kv => mapInsert m kv.1 kv.2) []

/-- Embeds `RespondWorkflowTaskCompletedRequest` as assembled by the client.
The Rust `query_results` field is a map keyed by query id, built by
collecting the iterator `request.query_responses.into_iter().map(...)`;
it is embedded as the unique-key association list `mapCollect` builds from
that iterator, with the map's last-wins behaviour on duplicate ids. -/
structure RespondWorkflowTaskCompletedRequest where
  task_token : List Nat
  commands : List Command
  identity : String
  sticky_attributes : Option StickyExecutionAttributes
  return_new_workflow_task : Bool
  force_create_new_workflow_task : Bool
  worker_version_stamp : Option WorkerVersionStamp
  messages : List Message
  binary_checksum : String
  query_results : List (String × WorkflowQueryResult)
  «namespace» : String
  sdk_metadata : Option WorkflowTaskCompletedMetadata
  metering_metadata : Option MeteringMetadata
deriving DecidableEq, Repr

/-- Embeds `RespondActivityTaskCompletedRequest` as assembled by the client. -/
structure RespondActivityTaskCompletedRequest where
  task_token : List Nat
  result : Option Payloads
  identity : String
  «namespace» : String
  worker_version : Option WorkerVersionStamp
deriving DecidableEq, Repr

/-- Embeds `RecordActivityTaskHeartbeatRequest` as assembled by the client. The
source initializes every field of this struct (no `..Default::default()`),
so the wire struct has exactly these fields: in particular it carries no
worker-version-stamp field at all. -/
structure RecordActivityTaskHeartbeatRequest where
  task_token : List Nat
  details : Option Payloads
  identity : String
  «namespace» : String
deriving DecidableEq, Repr

/-- Embeds `RespondActivityTaskCanceledRequest` as assembled by the client. -/
structure RespondActivityTaskCanceledRequest where
  task_token : List Nat
  details : Option Payloads
  identity : String
  «namespace» : String
  worker_version : Option WorkerVersionStamp
deriving DecidableEq, Repr

/-- Embeds `RespondActivityTaskFailedRequest` as assembled by the client. -/
structure RespondActivityTaskFailedRequest where
  task_token : List Nat
  failure : Option Failure
  identity : String
  «namespace» : String
  last_heartbeat_details : Option Payloads
  worker_version : Option WorkerVersionStamp
deriving DecidableEq, Repr

/-- Embeds `RespondWorkflowTaskFailedRequest` as assembled by the client. The
failure cause is embedded as the integer it is cast to (`cause as i32`). -/
structure RespondWorkflowTaskFailedRequest where
  task_token : List Nat
  cause : Int
  failure : Option Failure
  identity : String
  binary_checksum : String
  «namespace» : String
  messages : List Message
  worker_version : Option WorkerVersionStamp
deriving DecidableEq, Repr

/-- The fields of `GetWorkflowExecutionHistoryRequest` that the source does
not name: it fills them with `..Default::default()`, so they are embedded
as one component with a default value. -/
structure GetHistoryRequestRest where
  defaulted : Nat := 0
deriving DecidableEq, Repr

/-- Embeds `GetWorkflowExecutionHistoryRequest` as assembled by the client; `rest`
stands for every field the source leaves to `..Default::default()`. Note
the struct has no worker-version-stamp field among its named fields. -/
structure GetWorkflowExecutionHistoryRequest where
  «namespace» : String
  execution : Option WorkflowExecution
  next_page_token : List Nat
  rest : GetHistoryRequestRest
deriving DecidableEq, Repr

/-- Embeds `RespondQueryTaskCompletedRequest` as assembled by the client. The
source initializes every field of this struct (no `..Default::default()`),
so the wire struct has exactly these fields: in particular it carries no
query-id field and no worker-version-stamp field at all. -/
structure RespondQueryTaskCompletedRequest where
  task_token : List Nat
  completed_type : Int
  query_result : Option Payloads
  error_message : String
  «namespace» : String
deriving DecidableEq, Repr

/-- A status-coded failure from the transport (`tonic::Status`). -/
structure TonicStatus where
  code : Int
  message : String
deriving DecidableEq, Repr

/-- The transport's wrapped response (`tonic::Response<T>`); `into_inner`
is the payload extraction the client applies on success. -/
structure TonicResponse (α : Type) where
  into_inner : α
deriving DecidableEq, Repr

/-- Opaque response payloads, one per operation; the client unwraps and
returns them unmodified. -/
structure PollWorkflowTaskQueueResponse where
  blob : Nat
deriving DecidableEq, Repr

structure PollActivityTaskQueueResponse where
  blob : Nat
deriving DecidableEq, Repr

structure RespondWorkflowTaskCompletedResponse where
  blob : Nat
deriving DecidableEq, Repr

structure RespondActivityTaskCompletedResponse where
  blob : Nat
deriving DecidableEq, Repr

structure RecordActivityTaskHeartbeatResponse where
  blob : Nat
deriving DecidableEq, Repr

structure RespondActivityTaskCanceledResponse where
  blob : Nat
deriving DecidableEq, Repr

structure RespondActivityTaskFailedResponse where
  blob : Nat
deriving DecidableEq, Repr

structure RespondWorkflowTaskFailedResponse where
  blob : Nat
deriving DecidableEq, Repr

structure GetWorkflowExecutionHistoryResponse where
  blob : Nat
deriving DecidableEq, Repr

structure RespondQueryTaskCompletedResponse where
  blob : Nat
deriving DecidableEq, Repr

/-- The uniform `Ok(transport(request).await?.into_inner())` pattern shared
by every call-issuing operation: a transport error propagates unchanged
(`?`), a transport success is unwrapped and returned. -/
def callAndUnwrap {Req Resp : Type}
    (transport : Req → Except TonicStatus (TonicResponse Resp))
    (r : Req) : Except TonicStatus Resp :=
  match transport r with
  | .error s => .error s
  | .ok resp => .ok resp.into_inner

/-- Request assembly of `poll_workflow_task`. -/
def WorkerClientBag.poll_workflow_task_request (c : WorkerClientBag)
    (task_queue : TaskQueue) : PollWorkflowTaskQueueRequest :=
  { «namespace» := c.«namespace»
    task_queue := some task_queue
    identity := c.identity
    binary_checksum := c.binary_checksum
    worker_version_capabilities := c.worker_version_capabilities }

/-- Embeds `WorkerClient::poll_workflow_task`, with the transport call abstracted
as a function argument. -/
def WorkerClientBag.poll_workflow_task (c : WorkerClientBag)
    (transport : PollWorkflowTaskQueueRequest →
      Except TonicStatus (TonicResponse PollWorkflowTaskQueueResponse))
    (task_queue : TaskQueue) :
    Except TonicStatus PollWorkflowTaskQueueResponse :=
  callAndUnwrap transport (c.poll_workflow_task_request task_queue)

/-- Request assembly of `poll_activity_task`. -/
def WorkerClientBag.poll_activity_task_request (c : WorkerClientBag)
    (task_queue : String) (max_tasks_per_sec : Option F64) :
    PollActivityTaskQueueRequest :=
  { «namespace» := c.«namespace»
    task_queue := some { name := task_queue, kind := TaskQueueKind.Normal.toI32
                         normal_name := "" }
    identity := c.identity
    task_queue_metadata :=
      max_tasks_per_sec.map (fun tps => { max_tasks_per_second := some tps })
    worker_version_capabilities := c.worker_version_capabilities }

/-- Embeds `WorkerClient::poll_activity_task`, transport abstracted. -/
def WorkerClientBag.poll_activity_task (c : WorkerClientBag)
    (transport : PollActivityTaskQueueRequest →
      Except TonicStatus (TonicResponse PollActivityTaskQueueResponse))
    (task_queue : String) (max_tasks_per_sec : Option F64) :
    Except TonicStatus PollActivityTaskQueueResponse :=
  callAndUnwrap transport (c.poll_activity_task_request task_queue max_tasks_per_sec)

/-- Request assembly of `complete_workflow_task`: the field-dense mapping
from a `WorkflowTaskCompletion` onto the wire request. -/
def WorkerClientBag.complete_workflow_task_request (c : WorkerClientBag)
    (request : WorkflowTaskCompletion) : RespondWorkflowTaskCompletedRequest :=
  { task_token := request.task_token.bytes
    commands := request.commands
    identity := c.identity
    sticky_attributes := request.sticky_attributes
    return_new_workflow_task := request.return_new_workflow_task
    force_create_new_workflow_task := request.force_create_new_workflow_task
    worker_version_stamp := c.worker_version_stamp
    messages := []
    binary_checksum := c.binary_checksum
    query_results := mapCollect (request.query_responses.map (fun qr =>
      let (id, completed_type, query_result, error_message) := qr.into_components
      (id, { result_type := completed_type
             answer := query_result
             error_message := error_message })))
    «namespace» := c.«namespace»
    sdk_metadata := some request.sdk_metadata
    metering_metadata := some request.metering_metadata }

/-- Embeds `WorkerClient::complete_workflow_task`, transport abstracted. -/
def WorkerClientBag.complete_workflow_task (c : WorkerClientBag)
    (transport : RespondWorkflowTaskCompletedRequest →
      Except TonicStatus (TonicResponse RespondWorkflowTaskCompletedResponse))
    (request : WorkflowTaskCompletion) :
    Except TonicStatus RespondWorkflowTaskCompletedResponse :=
  callAndUnwrap transport (c.complete_workflow_task_request request)

/-- Request assembly of `complete_activity_task`. -/
def WorkerClientBag.complete_activity_task_request (c : WorkerClientBag)
    (task_token : TaskToken) (result : Option Payloads) :
    RespondActivityTaskCompletedRequest :=
  { task_token := task_token.bytes
    result := result
    identity := c.identity
    «namespace» := c.«namespace»
    worker_version := c.worker_version_stamp }

/-- Embeds `WorkerClient::complete_activity_task`, transport abstracted. -/
def WorkerClientBag.complete_activity_task (c : WorkerClientBag)
    (transport : RespondActivityTaskCompletedRequest →
      Except TonicStatus (TonicResponse RespondActivityTaskCompletedResponse))
    (task_token : TaskToken) (result : Option Payloads) :
    Except TonicStatus RespondActivityTaskCompletedResponse :=
  callAndUnwrap transport (c.complete_activity_task_request task_token result)

/-- Request assembly of `record_activity_heartbeat`. -/
def WorkerClientBag.record_activity_heartbeat_request (c : WorkerClientBag)
    (task_token : TaskToken) (details : Option Payloads) :
    RecordActivityTaskHeartbeatRequest :=
  { task_token := task_token.bytes
    details := details
    identity := c.identity
    «namespace» := c.«namespace» }

/-- Embeds `WorkerClient::record_activity_heartbeat`, transport abstracted. -/
def WorkerClientBag.record_activity_heartbeat (c : WorkerClientBag)
    (transport : RecordActivityTaskHeartbeatRequest →
      Except TonicStatus (TonicResponse RecordActivityTaskHeartbeatResponse))
    (task_token : TaskToken) (details : Option Payloads) :
    Except TonicStatus RecordActivityTaskHeartbeatResponse :=
  callAndUnwrap transport (c.record_activity_heartbeat_request task_token details)

/-- Request assembly of `cancel_activity_task`. -/
def WorkerClientBag.cancel_activity_task_request (c : WorkerClientBag)
    (task_token : TaskToken) (details : Option Payloads) :
    RespondActivityTaskCanceledRequest :=
  { task_token := task_token.bytes
    details := details
    identity := c.identity
    «namespace» := c.«namespace»
    worker_version := c.worker_version_stamp }

/-- Embeds `WorkerClient::cancel_activity_task`, transport abstracted. -/
def WorkerClientBag.cancel_activity_task (c : WorkerClientBag)
    (transport : RespondActivityTaskCanceledRequest →
      Except TonicStatus (TonicResponse RespondActivityTaskCanceledResponse))
    (task_token : TaskToken) (details : Option Payloads) :
    Except TonicStatus RespondActivityTaskCanceledResponse :=
  callAndUnwrap transport (c.cancel_activity_task_request task_token details)

/-- Request assembly of `fail_activity_task`; `last_heartbeat_details` is
intentionally left unset (`None`) in the source. -/
def WorkerClientBag.fail_activity_task_request (c : WorkerClientBag)
    (task_token : TaskToken) (failure : Option Failure) :
    RespondActivityTaskFailedRequest :=
  { task_token := task_token.bytes
    failure := failure
    identity := c.identity
    «namespace» := c.«namespace»
    last_heartbeat_details := none
    worker_version := c.worker_version_stamp }

/-- Embeds `WorkerClient::fail_activity_task`, transport abstracted. -/
def WorkerClientBag.fail_activity_task (c : WorkerClientBag)
    (transport : RespondActivityTaskFailedRequest →
      Except TonicStatus (TonicResponse RespondActivityTaskFailedResponse))
    (task_token : TaskToken) (failure : Option Failure) :
    Except TonicStatus RespondActivityTaskFailedResponse :=
  callAndUnwrap transport (c.fail_activity_task_request task_token failure)

/-- Request assembly of `fail_workflow_task`; the cause arrives already as
its wire integer (`cause as i32`). -/
def WorkerClientBag.fail_workflow_task_request (c : WorkerClientBag)
    (task_token : TaskToken) (cause : Int) (failure : Option Failure) :
    RespondWorkflowTaskFailedRequest :=
  { task_token := task_token.bytes
    cause := cause
    failure := failure
    identity := c.identity
    binary_checksum := c.binary_checksum
    «namespace» := c.«namespace»
    messages := []
    worker_version := c.worker_version_stamp }

/-- Embeds `WorkerClient::fail_workflow_task`, transport abstracted. -/
def WorkerClientBag.fail_workflow_task (c : WorkerClientBag)
    (transport : RespondWorkflowTaskFailedRequest →
      Except TonicStatus (TonicResponse RespondWorkflowTaskFailedResponse))
    (task_token : TaskToken) (cause : Int) (failure : Option Failure) :
    Except TonicStatus RespondWorkflowTaskFailedResponse :=
  callAndUnwrap transport (c.fail_workflow_task_request task_token cause failure)

/-- Request assembly of `get_workflow_execution_history`:
`run_id.unwrap_or_default()` yields the empty string when the run id is
absent, and every unnamed field comes from `..Default::default()`. -/
def WorkerClientBag.get_workflow_execution_history_request (c : WorkerClientBag)
    (workflow_id : String) (run_id : Option String) (page_token : List Nat) :
    GetWorkflowExecutionHistoryRequest :=
  { «namespace» := c.«namespace»
    execution := some { workflow_id := workflow_id, run_id := run_id.getD "" }
    next_page_token := page_token
    rest := {} }

/-- Embeds `WorkerClient::get_workflow_execution_history`, transport abstracted. -/
def WorkerClientBag.get_workflow_execution_history (c : WorkerClientBag)
    (transport : GetWorkflowExecutionHistoryRequest →
      Except TonicStatus (TonicResponse GetWorkflowExecutionHistoryResponse))
    (workflow_id : String) (run_id : Option String) (page_token : List Nat) :
    Except TonicStatus GetWorkflowExecutionHistoryResponse :=
  callAndUnwrap transport
    (c.get_workflow_execution_history_request workflow_id run_id page_token)

/-- Request assembly of `respond_legacy_query`: the query result is
exploded into its components and the id component is discarded
(`let (_, completed_type, query_result, error_message) = ...`). -/
def WorkerClientBag.respond_legacy_query_request (c : WorkerClientBag)
    (task_token : TaskToken) (query_result : QueryResult) :
    RespondQueryTaskCompletedRequest :=
  let (_, completed_type, qr, error_message) := query_result.into_components
  { task_token := task_token.bytes
    completed_type := completed_type
    query_result := qr
    error_message := error_message
    «namespace» := c.«namespace» }

/-- Embeds `WorkerClient::respond_legacy_query`, transport abstracted. -/
def WorkerClientBag.respond_legacy_query (c : WorkerClientBag)
    (transport : RespondQueryTaskCompletedRequest →
      Except TonicStatus (TonicResponse RespondQueryTaskCompletedResponse))
    (task_token : TaskToken) (query_result : QueryResult) :
    Except TonicStatus RespondQueryTaskCompletedResponse :=
  callAndUnwrap transport (c.respond_legacy_query_request task_token query_result)

/-- The worker-version-stamp content of a workflow-task-completed request
(field `worker_version_stamp`). -/
def RespondWorkflowTaskCompletedRequest.version_stamp_field
    (r : RespondWorkflowTaskCompletedRequest) : Option WorkerVersionStamp :=
  r.worker_version_stamp

/-- The worker-version-stamp content of an activity-completed request
(field `worker_version`). -/
def RespondActivityTaskCompletedRequest.version_stamp_field
    (r : RespondActivityTaskCompletedRequest) : Option WorkerVersionStamp :=
  r.worker_version

/-- The worker-version-stamp content of an activity-canceled request
(field `worker_version`). -/
def RespondActivityTaskCanceledRequest.version_stamp_field
    (r : RespondActivityTaskCanceledRequest) : Option WorkerVersionStamp :=
  r.worker_version

/-- The worker-version-stamp content of an activity-failed request
(field `worker_version`). -/
def RespondActivityTaskFailedRequest.version_stamp_field
    (r : RespondActivityTaskFailedRequest) : Option WorkerVersionStamp :=
  r.worker_version

/-- The worker-version-stamp content of a workflow-task-failed request
(field `worker_version`). -/
def RespondWorkflowTaskFailedRequest.version_stamp_field
    (r : RespondWorkflowTaskFailedRequest) : Option WorkerVersionStamp :=
  r.worker_version

/-- The worker-version-stamp content of a heartbeat request: the wire
struct has no worker-version field at all (the source names every field of
this struct and none is a version stamp), so it is constantly absent. -/
def RecordActivityTaskHeartbeatRequest.version_stamp_field
    (_ : RecordActivityTaskHeartbeatRequest) : Option WorkerVersionStamp :=
  none

/-- The worker-version-stamp content of a legacy-query response request:
the wire struct has no worker-version field at all (the source names every
field of this struct and none is a version stamp), so it is constantly
absent. -/
def RespondQueryTaskCompletedRequest.version_stamp_field
    (_ : RespondQueryTaskCompletedRequest) : Option WorkerVersionStamp :=
  none

/-- The worker-version-stamp content of a get-history request: the source
names no worker-version field and never attaches the stamp in this
assembly, so it is constantly absent. -/
def GetWorkflowExecutionHistoryRequest.version_stamp_field
    (_ : GetWorkflowExecutionHistoryRequest) : Option WorkerVersionStamp :=
  none

/-- The worker-version-stamp content of a workflow poll request: the
struct carries `worker_version_capabilities` (a different message) and no
version-stamp field, so the stamp is constantly absent. -/
def PollWorkflowTaskQueueRequest.version_stamp_field
    (_ : PollWorkflowTaskQueueRequest) : Option WorkerVersionStamp :=
  none

/-- The worker-version-stamp content of an activity poll request: the
struct carries `worker_version_capabilities` (a different message) and no
version-stamp field, so the stamp is constantly absent. -/
def PollActivityTaskQueueRequest.version_stamp_field
    (_ : PollActivityTaskQueueRequest) : Option WorkerVersionStamp :=
  none

/-- A client with build id "w1" whose capability descriptor is absent. -/
def bagAbsent : WorkerClientBag :=
  { «namespace» := "ns", identity := "ident", worker_build_id := "w1"
    use_versioning := true, capabilities := none }

/-- A client whose descriptor is present with build-id versioning disabled. -/
def bagDisabled : WorkerClientBag :=
  { «namespace» := "ns", identity := "ident", worker_build_id := "w1"
    use_versioning := false
    capabilities := some { build_id_based_versioning := false } }

/-- A client whose descriptor is present with build-id versioning enabled. -/
def bagEnabled : WorkerClientBag :=
  { «namespace» := "ns", identity := "ident", worker_build_id := "w1"
    use_versioning := true
    capabilities := some { build_id_based_versioning := true } }

/-- A concrete task token. -/
def tok0 : TaskToken := { bytes := [1, 2, 3] }

/-- A concrete query result. -/
def qr0 : QueryResult :=
  { query_id := "q-a", completed_type := 1, answer := some { blob := 7 }
    error_message := "" }

/-- The same query result under a different id. -/
def qr1 : QueryResult :=
  { query_id := "q-b", completed_type := 1, answer := some { blob := 7 }
    error_message := "" }

/-- A query result under the id "dup". -/
def qrDupA : QueryResult :=
  { query_id := "dup", completed_type := 1, answer := some { blob := 7 }
    error_message := "" }

/-- A different query result under the same id "dup". -/
def qrDupB : QueryResult :=
  { query_id := "dup", completed_type := 2, answer := none
    error_message := "boom" }

/-- A completion record carrying two query results that share one id. -/
def wtcDup : WorkflowTaskCompletion :=
  { task_token := tok0, commands := [], sticky_attributes := none
    query_responses := [qrDupA, qrDupB], return_new_workflow_task := false
    force_create_new_workflow_task := false
    sdk_metadata := { blob := 0 }
    metering_metadata := { blob := 0 } }

/-- A completion record carrying two query results with distinct ids. -/
def wtcDistinct : WorkflowTaskCompletion :=
  { task_token := tok0, commands := [], sticky_attributes := none
    query_responses := [qr0, qr1], return_new_workflow_task := false
    force_create_new_workflow_task := false
    sdk_metadata := { blob := 0 }
    metering_metadata := { blob := 0 } }

/-- The error branch of the shared call pattern: a transport error is
returned unchanged. -/
theorem callAndUnwrap_error {Req Resp : Type}
    (transport : Req → Except TonicStatus (TonicResponse Resp))
    (r : Req) (s : TonicStatus) (h : transport r = .error s) :
    callAndUnwrap transport r = .error s := by
  simp [callAndUnwrap, h]

/-- The success branch of the shared call pattern: a transport success is
unwrapped and returned unchanged. -/
theorem callAndUnwrap_ok {Req Resp : Type}
    (transport : Req → Except TonicStatus (TonicResponse Resp))
    (r : Req) (resp : TonicResponse Resp) (h : transport r = .ok resp) :
    callAndUnwrap transport r = .ok resp.into_inner := by
  simp [callAndUnwrap, h]

/-- C1: for every capability state, the binary checksum equals the worker
build identifier when build-id-based versioning is disabled and the empty
string when it is enabled; the worker version stamp and the worker version
capabilities are present exactly when versioning is enabled; hence a
non-empty checksum excludes both versioning structures. -/
theorem negotiator_checksum_stamp_mutual_exclusivity (c : WorkerClientBag) :
    (c.default_capabilities.build_id_based_versioning = false →
      c.binary_checksum = c.worker_build_id) ∧
    (c.default_capabilities.build_id_based_versioning = true →
      c.binary_checksum = "") ∧
    (c.worker_version_stamp.isSome = true ↔
      c.default_capabilities.build_id_based_versioning = true) ∧
    (c.worker_version_capabilities.isSome = true ↔
      c.default_capabilities.build_id_based_versioning = true) ∧
    (c.binary_checksum ≠ "" →
      c.worker_version_stamp = none ∧ c.worker_version_capabilities = none) := by
  by_cases h : c.default_capabilities.build_id_based_versioning = true
  · simp [WorkerClientBag.binary_checksum, WorkerClientBag.worker_version_stamp,
      WorkerClientBag.worker_version_capabilities, h]
  · simp [WorkerClientBag.binary_checksum, WorkerClientBag.worker_version_stamp,
      WorkerClientBag.worker_version_capabilities, h]

/-- Witness for C1 at the three concrete capability states. -/
theorem negotiator_checksum_stamp_mutual_exclusivity_witness :
    bagAbsent.binary_checksum = "w1" ∧
    bagDisabled.binary_checksum = "w1" ∧
    bagEnabled.binary_checksum = "" ∧
    bagEnabled.worker_version_stamp.isSome = true ∧
    bagAbsent.worker_version_stamp = none ∧
    bagAbsent.worker_version_capabilities = none := by
  refine ⟨(negotiator_checksum_stamp_mutual_exclusivity bagAbsent).1 (by decide),
    (negotiator_checksum_stamp_mutual_exclusivity bagDisabled).1 (by decide),
    (negotiator_checksum_stamp_mutual_exclusivity bagEnabled).2.1 (by decide),
    (negotiator_checksum_stamp_mutual_exclusivity bagEnabled).2.2.1.mpr (by decide),
    ?_, ?_⟩
  · exact ((negotiator_checksum_stamp_mutual_exclusivity bagAbsent).2.2.2.2
      (by decide)).1
  · exact ((negotiator_checksum_stamp_mutual_exclusivity bagAbsent).2.2.2.2
      (by decide)).2

/-- Folding map insertions over a list whose keys are nodup and disjoint
from the accumulator's keys appends the list unchanged. -/
theorem mapCollect_go (l : List (String × WorkflowQueryResult)) :
    ∀ acc : List (String × WorkflowQueryResult),
    (l.map Prod.fst).Nodup →
    (∀ e ∈ acc, e.1 ∉ l.map Prod.fst) →
    l.foldl (fun m kv => mapInsert m kv.1 kv.2) acc = acc ++ l := by
  induction l with
  | nil => intro acc _ _; simp
  | cons kv t ih =>
    intro acc h1 h2
    obtain ⟨k, v⟩ := kv
    simp only [List.foldl_cons]
    have hk : k ∉ acc.map Prod.fst := by
      intro hmem
      obtain ⟨e, he, heq⟩ := List.mem_map.mp hmem
      exact h2 e he (by simp [heq])
    have hins : mapInsert acc k v = acc ++ [(k, v)] := by
      simp only [mapInsert]
      rw [if_neg hk]
    rw [hins]
    simp only [List.map_cons, List.nodup_cons] at h1
    have h2' : ∀ e ∈ acc ++ [(k, v)], e.1 ∉ t.map Prod.fst := by
      intro e he
      rcases List.mem_append.mp he with h | h
      · intro hc
        exact h2 e h (by simp [hc])
      · simp only [List.mem_singleton] at h
        subst h
        exact h1.1
    rw [ih (acc ++ [(k, v)]) h1.2 h2']
    simp

/-- Collecting a list whose keys are pairwise distinct into the id-keyed
map keeps every entry: no insertion overwrites. -/
theorem mapCollect_eq_self (l : List (String × WorkflowQueryResult))
    (h : (l.map Prod.fst).Nodup) : mapCollect l = l := by
  simpa [mapCollect] using mapCollect_go l [] h (by simp)

/-- The query-results field of the assembled completion request is the
id-keyed map collected from the exploded input query results. -/
theorem complete_workflow_task_request_query_results (c : WorkerClientBag)
    (req : WorkflowTaskCompletion) :
    (c.complete_workflow_task_request req).query_results
      = mapCollect (req.query_responses.map (fun qr =>
          (qr.query_id,
            { result_type := qr.completed_type, answer := qr.answer,
              error_message := qr.error_message }))) := by
  simp [WorkerClientBag.complete_workflow_task_request,
    QueryResult.into_components]

/-- Counterexample for C2: a completion record with two query results
sharing the id "dup" assembles a request whose id-keyed query-results map
holds a single entry — the later result — not two; the first result's
values are dropped, so the exactly-N and every-input-appears parts of the
claim fail. -/
theorem complete_workflow_task_duplicate_id_counterexample :
    wtcDup.query_responses.length = 2 ∧
    (bagAbsent.complete_workflow_task_request wtcDup).query_results
      = [("dup", { result_type := 2, answer := none
                   error_message := "boom" })] ∧
    (bagAbsent.complete_workflow_task_request wtcDup).query_results.length
      = 1 ∧
    ("dup",
      ({ result_type := 1, answer := some { blob := 7 }, error_message := "" } :
        WorkflowQueryResult))
      ∉ (bagAbsent.complete_workflow_task_request wtcDup).query_results := by
  refine ⟨rfl, by decide, by decide, by decide⟩

/-- C2 (amended): for every completion record whose query results bear
pairwise-distinct ids, the workflow-task-completed request carries exactly
as many query-result entries as the record has query results; each input
query result appears as the entry keyed by its id with its result-type,
answer, and error message; every entry arises from some input query
result; and the inter-SDK message list is empty. (On duplicate ids the
id-keyed map keeps only the last result per id.) -/
theorem complete_workflow_task_query_results_keyed_by_id (c : WorkerClientBag)
    (req : WorkflowTaskCompletion)
    (hids : (req.query_responses.map QueryResult.query_id).Nodup) :
    (c.complete_workflow_task_request req).query_results.length
        = req.query_responses.length ∧
    (∀ qr ∈ req.query_responses,
      (qr.query_id,
        ({ result_type := qr.completed_type, answer := qr.answer,
           error_message := qr.error_message } : WorkflowQueryResult))
        ∈ (c.complete_workflow_task_request req).query_results) ∧
    (∀ e ∈ (c.complete_workflow_task_request req).query_results,
      ∃ qr ∈ req.query_responses,
        e.1 = qr.query_id ∧ e.2.result_type = qr.completed_type ∧
        e.2.answer = qr.answer ∧ e.2.error_message = qr.error_message) ∧
    (c.complete_workflow_task_request req).messages = [] := by
  have hq : (c.complete_workflow_task_request req).query_results
      = req.query_responses.map (fun qr =>
          (qr.query_id,
            { result_type := qr.completed_type, answer := qr.answer,
              error_message := qr.error_message })) := by
    rw [complete_workflow_task_request_query_results]
    apply mapCollect_eq_self
    simpa [List.map_map, Function.comp] using hids
  refine ⟨?_, ?_, ?_, rfl⟩
  · rw [hq]
    simp
  · intro qr hmem
    rw [hq]
    exact List.mem_map.mpr ⟨qr, hmem, rfl⟩
  · intro e he
    rw [hq] at he
    obtain ⟨qr, hqr, heq⟩ := List.mem_map.mp he
    subst heq
    exact ⟨qr, hqr, rfl, rfl, rfl, rfl⟩

/-- Witness for the amended C2 on a two-element distinct-id list. -/
theorem complete_workflow_task_query_results_keyed_by_id_witness :
    (bagAbsent.complete_workflow_task_request wtcDistinct).query_results.length
      = 2 ∧
    ("q-a",
      ({ result_type := 1, answer := some { blob := 7 }, error_message := "" } :
        WorkflowQueryResult)) ∈
      (bagAbsent.complete_workflow_task_request wtcDistinct).query_results := by
  constructor
  · exact (complete_workflow_task_query_results_keyed_by_id bagAbsent
      wtcDistinct (by decide)).1
  · exact (complete_workflow_task_query_results_keyed_by_id bagAbsent
      wtcDistinct (by decide)).2.1 qr0 (by simp [wtcDistinct])

/-- The same client with the absent capability descriptor replaced by a
present, all-default one (build-id versioning disabled). -/
def WorkerClientBag.disabledTwin (c : WorkerClientBag) : WorkerClientBag :=
  { c with capabilities := some {} }

/-- C3: when the cached capability descriptor is absent, nothing fails:
the negotiator treats the state as versioning-disabled (checksum is the
build id, stamp and capabilities absent), and every request assembly
produces exactly the request it would produce with a present descriptor
that has versioning disabled. -/
theorem absent_capabilities_behaves_as_disabled (c : WorkerClientBag)
    (h : c.capabilities = none) :
    c.binary_checksum = c.worker_build_id ∧
    c.worker_version_stamp = none ∧
    c.worker_version_capabilities = none ∧
    (∀ tq, c.poll_workflow_task_request tq
        = c.disabledTwin.poll_workflow_task_request tq) ∧
    (∀ q m, c.poll_activity_task_request q m
        = c.disabledTwin.poll_activity_task_request q m) ∧
    (∀ req, c.complete_workflow_task_request req
        = c.disabledTwin.complete_workflow_task_request req) ∧
    (∀ tok r, c.complete_activity_task_request tok r
        = c.disabledTwin.complete_activity_task_request tok r) ∧
    (∀ tok d, c.record_activity_heartbeat_request tok d
        = c.disabledTwin.record_activity_heartbeat_request tok d) ∧
    (∀ tok d, c.cancel_activity_task_request tok d
        = c.disabledTwin.cancel_activity_task_request tok d) ∧
    (∀ tok f, c.fail_activity_task_request tok f
        = c.disabledTwin.fail_activity_task_request tok f) ∧
    (∀ tok cause f, c.fail_workflow_task_request tok cause f
        = c.disabledTwin.fail_workflow_task_request tok cause f) ∧
    (∀ w r p, c.get_workflow_execution_history_request w r p
        = c.disabledTwin.get_workflow_execution_history_request w r p) ∧
    (∀ tok q, c.respond_legacy_query_request tok q
        = c.disabledTwin.respond_legacy_query_request tok q) := by
  have hd : c.default_capabilities = {} := by
    simp [WorkerClientBag.default_capabilities, h]
  have hd' : c.disabledTwin.default_capabilities = {} := by
    simp [WorkerClientBag.default_capabilities, WorkerClientBag.disabledTwin]
  have hw : c.disabledTwin.worker_build_id = c.worker_build_id := rfl
  have hc : c.binary_checksum = c.worker_build_id := by
    simp [WorkerClientBag.binary_checksum, hd]
  have hc' : c.disabledTwin.binary_checksum = c.worker_build_id := by
    simp [WorkerClientBag.binary_checksum, hd', hw]
  have hs : c.worker_version_stamp = none := by
    simp [WorkerClientBag.worker_version_stamp, hd]
  have hs' : c.disabledTwin.worker_version_stamp = none := by
    simp [WorkerClientBag.worker_version_stamp, hd']
  have hv : c.worker_version_capabilities = none := by
    simp [WorkerClientBag.worker_version_capabilities, hd]
  have hv' : c.disabledTwin.worker_version_capabilities = none := by
    simp [WorkerClientBag.worker_version_capabilities, hd']
  have hn : c.disabledTwin.«namespace» = c.«namespace» := rfl
  have hi : c.disabledTwin.identity = c.identity := rfl
  refine ⟨hc, hs, hv, ?_, ?_, ?_, ?_, ?_, ?_, ?_, ?_, ?_, ?_⟩ <;>
    intros <;>
    simp [WorkerClientBag.poll_workflow_task_request,
      WorkerClientBag.poll_activity_task_request,
      WorkerClientBag.complete_workflow_task_request,
      WorkerClientBag.complete_activity_task_request,
      WorkerClientBag.record_activity_heartbeat_request,
      WorkerClientBag.cancel_activity_task_request,
      WorkerClientBag.fail_activity_task_request,
      WorkerClientBag.fail_workflow_task_request,
      WorkerClientBag.get_workflow_execution_history_request,
      WorkerClientBag.respond_legacy_query_request,
      hc, hc', hs, hs', hv, hv', hn, hi]

/-- Witness for C3: with the descriptor absent and build id "w1", the
checksum is "w1" and both versioning structures are absent. -/
theorem absent_capabilities_behaves_as_disabled_witness :
    bagAbsent.binary_checksum = "w1" ∧
    bagAbsent.worker_version_stamp = none ∧
    bagAbsent.worker_version_capabilities = none := by
  obtain ⟨h1, h2, h3, -⟩ := absent_capabilities_behaves_as_disabled bagAbsent rfl
  exact ⟨h1, h2, h3⟩

/-- C4: for every operation that issues a transport call, a status-coded
transport failure is returned exactly as the transport produced it (no
retry, wrapping, or classification), and a transport success is unwrapped
and returned, so the façade introduces no failure of its own. -/
theorem transport_failure_propagated_verbatim :
    (∀ (c : WorkerClientBag) t tq (s : TonicStatus),
      t (c.poll_workflow_task_request tq) = .error s →
      c.poll_workflow_task t tq = .error s) ∧
    (∀ (c : WorkerClientBag) t q m (s : TonicStatus),
      t (c.poll_activity_task_request q m) = .error s →
      c.poll_activity_task t q m = .error s) ∧
    (∀ (c : WorkerClientBag) t req (s : TonicStatus),
      t (c.complete_workflow_task_request req) = .error s →
      c.complete_workflow_task t req = .error s) ∧
    (∀ (c : WorkerClientBag) t tok r (s : TonicStatus),
      t (c.complete_activity_task_request tok r) = .error s →
      c.complete_activity_task t tok r = .error s) ∧
    (∀ (c : WorkerClientBag) t tok d (s : TonicStatus),
      t (c.record_activity_heartbeat_request tok d) = .error s →
      c.record_activity_heartbeat t tok d = .error s) ∧
    (∀ (c : WorkerClientBag) t tok d (s : TonicStatus),
      t (c.cancel_activity_task_request tok d) = .error s →
      c.cancel_activity_task t tok d = .error s) ∧
    (∀ (c : WorkerClientBag) t tok f (s : TonicStatus),
      t (c.fail_activity_task_request tok f) = .error s →
      c.fail_activity_task t tok f = .error s) ∧
    (∀ (c : WorkerClientBag) t tok cause f (s : TonicStatus),
      t (c.fail_workflow_task_request tok cause f) = .error s →
      c.fail_workflow_task t tok cause f = .error s) ∧
    (∀ (c : WorkerClientBag) t w r p (s : TonicStatus),
      t (c.get_workflow_execution_history_request w r p) = .error s →
      c.get_workflow_execution_history t w r p = .error s) ∧
    (∀ (c : WorkerClientBag) t tok q (s : TonicStatus),
      t (c.respond_legacy_query_request tok q) = .error s →
      c.respond_legacy_query t tok q = .error s) ∧
    (∀ (c : WorkerClientBag) t tq resp,
      t (c.poll_workflow_task_request tq) = .ok resp →
      c.poll_workflow_task t tq = .ok resp.into_inner) := by
  refine ⟨?_, ?_, ?_, ?_, ?_, ?_, ?_, ?_, ?_, ?_, ?_⟩ <;> intros c t
  · exact fun tq s h => callAndUnwrap_error t _ s h
  · exact fun q m s h => callAndUnwrap_error t _ s h
  · exact fun req s h => callAndUnwrap_error t _ s h
  · exact fun tok r s h => callAndUnwrap_error t _ s h
  · exact fun tok d s h => callAndUnwrap_error t _ s h
  · exact fun tok d s h => callAndUnwrap_error t _ s h
  · exact fun tok f s h => callAndUnwrap_error t _ s h
  · exact fun tok cause f s h => callAndUnwrap_error t _ s h
  · exact fun w r p s h => callAndUnwrap_error t _ s h
  · exact fun tok q s h => callAndUnwrap_error t _ s h
  · exact fun tq resp h => callAndUnwrap_ok t _ resp h

/-- Witness for C4: a transport that fails with status 14 makes the poll
operation return exactly that status. -/
theorem transport_failure_propagated_verbatim_witness :
    bagAbsent.poll_workflow_task
      (fun _ => Except.error { code := 14, message := "unavailable" })
      { name := "q1", kind := 1, normal_name := "" }
      = Except.error { code := 14, message := "unavailable" } := by
  exact transport_failure_propagated_verbatim.1 bagAbsent _ _ _ rfl

/-- Counterexample for C5: heartbeat is not the only operation whose
assembled request omits the version stamp. Even with build-id versioning
enabled (so completion-side requests do carry the stamp), the legacy-query
response request carries no version stamp, because its wire struct has no
such field; the get-history request likewise carries none. -/
theorem heartbeat_not_sole_stamp_omitter_counterexample :
    (bagEnabled.record_activity_heartbeat_request tok0 none).version_stamp_field
        = none ∧
    (bagEnabled.respond_legacy_query_request tok0 qr0).version_stamp_field
        = none ∧
    (bagEnabled.get_workflow_execution_history_request "wf" none []).version_stamp_field
        = none ∧
    (bagEnabled.complete_activity_task_request tok0 none).version_stamp_field
        = some { build_id := "w1", bundle_id := "", use_versioning := true } := by
  refine ⟨rfl, rfl, rfl, ?_⟩
  simp [WorkerClientBag.complete_activity_task_request,
    RespondActivityTaskCompletedRequest.version_stamp_field,
    WorkerClientBag.worker_version_stamp, WorkerClientBag.default_capabilities,
    bagEnabled]

/-- C5 (amended): the heartbeat request never carries a version stamp, but
heartbeat is not alone: the two poll requests, the get-history request,
and the legacy-query request also never carry one, while the five
completion-side requests (complete/cancel/fail activity, complete/fail
workflow task) always carry exactly the negotiator's version-stamp value. -/
theorem version_stamp_field_per_operation (c : WorkerClientBag) :
    (∀ tok d, (c.record_activity_heartbeat_request tok d).version_stamp_field
        = none) ∧
    (∀ tq, (c.poll_workflow_task_request tq).version_stamp_field = none) ∧
    (∀ q m, (c.poll_activity_task_request q m).version_stamp_field = none) ∧
    (∀ w r p, (c.get_workflow_execution_history_request w r p).version_stamp_field
        = none) ∧
    (∀ tok q, (c.respond_legacy_query_request tok q).version_stamp_field
        = none) ∧
    (∀ req, (c.complete_workflow_task_request req).version_stamp_field
        = c.worker_version_stamp) ∧
    (∀ tok r, (c.complete_activity_task_request tok r).version_stamp_field
        = c.worker_version_stamp) ∧
    (∀ tok d, (c.cancel_activity_task_request tok d).version_stamp_field
        = c.worker_version_stamp) ∧
    (∀ tok f, (c.fail_activity_task_request tok f).version_stamp_field
        = c.worker_version_stamp) ∧
    (∀ tok cause f,
      (c.fail_workflow_task_request tok cause f).version_stamp_field
        = c.worker_version_stamp) := by
  exact ⟨fun _ _ => rfl, fun _ => rfl, fun _ _ => rfl, fun _ _ _ => rfl,
    fun _ _ => rfl, fun _ => rfl, fun _ _ => rfl, fun _ _ => rfl,
    fun _ _ => rfl, fun _ _ _ => rfl⟩

/-- C6: when the run id is absent, the get-history request's execution
reference carries the given workflow id together with an empty-string run
id (the run-id field of the reference is a plain string, never absent),
the namespace and page token are carried as given, and every remaining
request field is left at its default. -/
theorem get_history_absent_run_id_is_empty_string (c : WorkerClientBag)
    (workflow_id : String) (run_id : Option String) (page_token : List Nat)
    (h : run_id = none) :
    (c.get_workflow_execution_history_request workflow_id run_id page_token)
      = { «namespace» := c.«namespace»
          execution := some { workflow_id := workflow_id, run_id := "" }
          next_page_token := page_token
          rest := {} } := by
  subst h
  simp [WorkerClientBag.get_workflow_execution_history_request]

/-- Witness for C6 at a concrete workflow id and page token. -/
theorem get_history_absent_run_id_is_empty_string_witness :
    bagAbsent.get_workflow_execution_history_request "wf-1" none [9]
      = { «namespace» := "ns"
          execution := some { workflow_id := "wf-1", run_id := "" }
          next_page_token := [9]
          rest := {} } := by
  exact get_history_absent_run_id_is_empty_string bagAbsent "wf-1" none [9] rfl

/-- C7: the legacy-query response request carries the input query result's
completion-type tag, answer payload, and error message but no id field, so
two query results that differ only in their id assemble to identical
requests. -/
theorem legacy_query_request_independent_of_query_id (c : WorkerClientBag)
    (tok : TaskToken) (q1 q2 : QueryResult)
    (hct : q1.completed_type = q2.completed_type)
    (ha : q1.answer = q2.answer)
    (he : q1.error_message = q2.error_message) :
    c.respond_legacy_query_request tok q1
        = c.respond_legacy_query_request tok q2 ∧
    (c.respond_legacy_query_request tok q1).completed_type
        = q1.completed_type ∧
    (c.respond_legacy_query_request tok q1).query_result = q1.answer ∧
    (c.respond_legacy_query_request tok q1).error_message
        = q1.error_message := by
  refine ⟨?_, rfl, rfl, rfl⟩
  simp [WorkerClientBag.respond_legacy_query_request,
    QueryResult.into_components, hct, ha, he]

/-- Witness for C7: two query results equal except for their ids produce
the same legacy-query request. -/
theorem legacy_query_request_independent_of_query_id_witness :
    bagAbsent.respond_legacy_query_request tok0 qr0
      = bagAbsent.respond_legacy_query_request tok0 qr1 := by
  exact (legacy_query_request_independent_of_query_id bagAbsent tok0 qr0 qr1
    rfl rfl rfl).1

/-- C8: the activity poll request wraps the queue name in a normal-kind
queue descriptor with an empty sticky normal-name; with no rate limit the
request carries no queue metadata, and with a rate limit r the queue
metadata is present with max-tasks-per-second r. -/
theorem poll_activity_task_queue_descriptor (c : WorkerClientBag)
    (q : String) :
    (c.poll_activity_task_request q none).task_queue
        = some { name := q, kind := TaskQueueKind.Normal.toI32
                 normal_name := "" } ∧
    (c.poll_activity_task_request q none).task_queue_metadata = none ∧
    (∀ r : F64,
      (c.poll_activity_task_request q (some r)).task_queue
          = some { name := q, kind := TaskQueueKind.Normal.toI32
                   normal_name := "" } ∧
      (c.poll_activity_task_request q (some r)).task_queue_metadata
          = some { max_tasks_per_second := some r }) := by
  exact ⟨rfl, rfl, fun r => ⟨rfl, rfl⟩⟩

/-- C9: the workflow-task-completed request always carries the SDK
metadata and metering metadata blocks wrapped in `some`, never absent. -/
theorem complete_workflow_task_metadata_always_present (c : WorkerClientBag)
    (req : WorkflowTaskCompletion) :
    (c.complete_workflow_task_request req).sdk_metadata
        = some req.sdk_metadata ∧
    (c.complete_workflow_task_request req).metering_metadata
        = some req.metering_metadata ∧
    (c.complete_workflow_task_request req).sdk_metadata.isSome = true ∧
    (c.complete_workflow_task_request req).metering_metadata.isSome = true := by
  exact ⟨rfl, rfl, rfl, rfl⟩

/-- C10: every task-token-taking operation copies the input token's bytes
into the request's task-token field unmodified. -/
theorem task_token_passed_through_unmodified (c : WorkerClientBag)
    (tok : TaskToken) :
    (∀ r, (c.complete_activity_task_request tok r).task_token = tok.bytes) ∧
    (∀ d, (c.record_activity_heartbeat_request tok d).task_token
        = tok.bytes) ∧
    (∀ d, (c.cancel_activity_task_request tok d).task_token = tok.bytes) ∧
    (∀ f, (c.fail_activity_task_request tok f).task_token = tok.bytes) ∧
    (∀ cause f, (c.fail_workflow_task_request tok cause f).task_token
        = tok.bytes) ∧
    (∀ req, req.task_token = tok →
      (c.complete_workflow_task_request req).task_token = tok.bytes) ∧
    (∀ q, (c.respond_legacy_query_request tok q).task_token = tok.bytes) := by
  refine ⟨fun _ => rfl, fun _ => rfl, fun _ => rfl, fun _ => rfl,
    fun _ _ => rfl, ?_, fun _ => rfl⟩
  intro req h
  simp [WorkerClientBag.complete_workflow_task_request, h]

/-- Witness for C10 at a concrete token and completion record. -/
theorem task_token_passed_through_unmodified_witness :
    (bagAbsent.complete_workflow_task_request
      { task_token := tok0, commands := [], sticky_attributes := none
        query_responses := [], return_new_workflow_task := false
        force_create_new_workflow_task := false
        sdk_metadata := { blob := 0 }
        metering_metadata := { blob := 0 } }).task_token = [1, 2, 3] := by
  exact (task_token_passed_through_unmodified bagAbsent tok0).2.2.2.2.2.1
    _ rfl
